import Mathlib

/- Verification development for the Youtube-Clippa clip pipeline (src/main.py).

   Python strings are modelled as lists of characters; machine-level details
   (filesystem, network) are modelled through explicit outcome oracles for the
   external collaborators (yt-dlp, ffmpeg, OpenAI, Firebase).  Every function
   below is translated from the source file; deviations are noted in the
   doc comment of the definition concerned. -/

namespace Clippa

/-! ## Time codec (src/main.py: format_time, time_to_seconds) -/

/-- The decimal digit character for a digit value below ten. -/
def digitChar (d : Nat) : Char := Char.ofNat (48 + d)

/-- Fuel-driven accumulator loop producing the decimal digit characters of a
    natural number, most significant first, in front of the accumulator.
    Models how Python renders an int inside an f-string. -/
def natToCharsCore : Nat → Nat → List Char → List Char
  | 0, _, acc => acc
  | f + 1, n, acc =>
      if n < 10 then digitChar n :: acc
      else natToCharsCore f (n / 10) (digitChar (n % 10) :: acc)

/-- Decimal rendering of a natural number, as Python's str(int) produces. -/
def natToChars (n : Nat) : List Char := natToCharsCore (n + 1) n []

/-- Recognises an ASCII decimal digit. -/
def isDigitChar (c : Char) : Bool := 48 ≤ c.toNat && c.toNat ≤ 57

/-- Numeric value of a digit character. -/
def digitVal (c : Char) : Nat := c.toNat - 48

/-- Left fold accumulating the value of a digit string on top of a seed. -/
def valFrom (a : Nat) (cs : List Char) : Nat :=
  cs.foldl (fun x c => 10 * x + digitVal c) a

/-- Parses a non-empty all-digit character list to a natural number;
    any other input is a Python ValueError, modelled as none. -/
def parseNat (cs : List Char) : Option Nat :=
  if cs.isEmpty then none
  else if cs.all isDigitChar then some (valFrom 0 cs) else none

/-- Model of the Python builtin int() applied to a string: an optional
    leading minus sign followed by decimal digits; anything else raises
    ValueError, modelled as none. -/
def pyInt (cs : List Char) : Option Int :=
  match cs with
  | [] => none
  | c :: rest =>
      if c = '-' then (parseNat rest).map (fun m => -(m : Int))
      else (parseNat (c :: rest)).map (fun m => (m : Int))

/-- Python str.split(sep) for a one-character separator: splits at every
    occurrence, never returns an empty list of parts. -/
def splitOnChar (sep : Char) : List Char → List (List Char)
  | [] => [[]]
  | c :: cs =>
      if c = sep then [] :: splitOnChar sep cs
      else
        match splitOnChar sep cs with
        | [] => [[c]]
        | p :: ps => (c :: p) :: ps

/-- src/main.py time_to_seconds: splits on ':'; with exactly two parts returns
    minutes times sixty plus seconds, otherwise falls back to int of the first
    part.  An int() failure (non-numeric part) propagates as none. -/
def time_to_seconds (time_str : List Char) : Option Int :=
  match splitOnChar ':' time_str with
  | [m, s] =>
      match pyInt m, pyInt s with
      | some a, some b => some (a * 60 + b)
      | _, _ => none
  | parts => pyInt (parts.headD [])

/-- src/main.py format_time: renders the minutes and the remaining seconds,
    separated by a colon, with no zero padding (a plain Python f-string). -/
def format_time (seconds : Nat) : List Char :=
  natToChars (seconds / 60) ++ ':' :: natToChars (seconds % 60)

-- Concrete behaviour of the codec on the inputs of the specification.
example : time_to_seconds (("1:2:3").data) = some 1 := rfl
example : time_to_seconds (("2:30").data) = some 150 := rfl
example : time_to_seconds (("45").data) = some 45 := rfl
example : format_time 61 = ('1' :: ':' :: '1' :: []) := rfl
example : format_time 150 = ("2:30").data := rfl

/-! ### Lemmas about the decimal rendering and the parser -/

theorem digitChar_isDigitChar (d : Nat) (h : d < 10) :
    isDigitChar (digitChar d) = true := by
  interval_cases d <;> decide

theorem digitVal_digitChar (d : Nat) (h : d < 10) :
    digitVal (digitChar d) = d := by
  interval_cases d <;> decide

theorem natToCharsCore_acc (f : Nat) :
    ∀ n acc, natToCharsCore f n acc = natToCharsCore f n [] ++ acc := by
  induction f with
  | zero => intro n acc; simp [natToCharsCore]
  | succ f ih =>
      intro n acc
      by_cases h : n < 10
      · simp [natToCharsCore, h]
      · simp only [natToCharsCore, if_neg h]
        rw [ih (n / 10) (digitChar (n % 10) :: acc),
            ih (n / 10) (digitChar (n % 10) :: [])]
        simp

theorem natToCharsCore_all_digits (f : Nat) :
    ∀ n acc, acc.all isDigitChar = true →
      (natToCharsCore f n acc).all isDigitChar = true := by
  induction f with
  | zero => intro n acc h; simpa [natToCharsCore] using h
  | succ f ih =>
      intro n acc h
      by_cases h10 : n < 10
      · simp only [natToCharsCore, if_pos h10, List.all_cons, h,
          digitChar_isDigitChar n h10, Bool.and_self]
      · simp only [natToCharsCore, if_neg h10]
        exact ih (n / 10) _ (by
          simp only [List.all_cons, h,
            digitChar_isDigitChar (n % 10) (Nat.mod_lt n (by decide)),
            Bool.and_self])

theorem natToChars_all_digits (n : Nat) :
    (natToChars n).all isDigitChar = true :=
  natToCharsCore_all_digits (n + 1) n [] rfl

theorem natToCharsCore_ne_nil (f n : Nat) (hf : 0 < f) :
    natToCharsCore f n [] ≠ [] := by
  cases f with
  | zero => exact absurd hf (by simp)
  | succ f =>
      by_cases h : n < 10
      · simp [natToCharsCore, h]
      · simp only [natToCharsCore, if_neg h]
        rw [natToCharsCore_acc f (n / 10) (digitChar (n % 10) :: [])]
        simp

theorem natToChars_ne_nil (n : Nat) : natToChars n ≠ [] :=
  natToCharsCore_ne_nil (n + 1) n (Nat.succ_pos n)

theorem valFrom_append (a : Nat) (xs ys : List Char) :
    valFrom a (xs ++ ys) = valFrom (valFrom a xs) ys := by
  simp [valFrom, List.foldl_append]

theorem natToCharsCore_val (f : Nat) :
    ∀ n a, n < f →
      valFrom a (natToCharsCore f n []) =
        a * 10 ^ (natToCharsCore f n []).length + n := by
  induction f with
  | zero => intro n a h; exact absurd h (by simp)
  | succ f ih =>
      intro n a h
      by_cases h10 : n < 10
      · simp [natToCharsCore, h10, valFrom, digitVal_digitChar n h10]
        ring
      · have hn : 0 < n := by omega
        have hdiv : n / 10 < n := Nat.div_lt_self hn (by decide)
        have hlt : n / 10 < f := by omega
        simp only [natToCharsCore, if_neg h10]
        rw [natToCharsCore_acc f (n / 10) (digitChar (n % 10) :: [])]
        rw [valFrom_append, ih (n / 10) a hlt]
        have hmod : digitVal (digitChar (n % 10)) = n % 10 :=
          digitVal_digitChar (n % 10) (Nat.mod_lt n (by decide))
        simp only [valFrom, List.foldl_cons, List.foldl_nil, hmod,
          List.length_append, List.length_cons, List.length_nil]
        have h1 : 10 * (n / 10) + n % 10 = n := by omega
        have h2 : 10 ^ ((natToCharsCore f (n / 10) []).length + (0 + 1)) =
            10 ^ (natToCharsCore f (n / 10) []).length * 10 := by
          simp [pow_succ]
        rw [h2]
        ring_nf
        omega

theorem valFrom_natToChars (n : Nat) : valFrom 0 (natToChars n) = n := by
  have := natToCharsCore_val (n + 1) n 0 (Nat.lt_succ_self n)
  simpa [natToChars] using this

theorem parseNat_natToChars (n : Nat) : parseNat (natToChars n) = some n := by
  have hne : natToChars n ≠ [] := natToChars_ne_nil n
  have hempty : (natToChars n).isEmpty = false := by
    cases h : natToChars n with
    | nil => exact absurd h hne
    | cons c cs => simp [List.isEmpty]
  simp [parseNat, hempty, natToChars_all_digits n, valFrom_natToChars n]

theorem pyInt_natToChars (n : Nat) : pyInt (natToChars n) = some ((n : Int)) := by
  cases h : natToChars n with
  | nil => exact absurd h (natToChars_ne_nil n)
  | cons c rest =>
      have hdig : isDigitChar c = true := by
        have hall := natToChars_all_digits n
        rw [h] at hall
        simp only [List.all_cons, Bool.and_eq_true] at hall
        exact hall.1
      have hcne : ¬ (c = '-') := by
        intro hc
        rw [hc] at hdig
        exact absurd hdig (by decide)
      have := parseNat_natToChars n
      rw [h] at this
      simp [pyInt, hcne, this]

theorem no_colon_of_all_digits (cs : List Char)
    (h : cs.all isDigitChar = true) : ':' ∉ cs := by
  intro hm
  have := List.all_eq_true.mp h _ hm
  exact absurd this (by decide)

theorem splitOnChar_no_sep (sep : Char) :
    ∀ cs : List Char, sep ∉ cs → splitOnChar sep cs = [cs] := by
  intro cs
  induction cs with
  | nil => intro _; rfl
  | cons c cs ih =>
      intro h
      have hcs : sep ∉ cs := fun hm => h (List.mem_cons_of_mem c hm)
      have hc : ¬ (c = sep) := fun hc => h (hc ▸ List.mem_cons_self c cs)
      simp only [splitOnChar, if_neg hc, ih hcs]

theorem splitOnChar_append_sep (sep : Char) :
    ∀ ds es : List Char, sep ∉ ds →
      splitOnChar sep (ds ++ sep :: es) = ds :: splitOnChar sep es := by
  intro ds
  induction ds with
  | nil =>
      intro es _
      simp [splitOnChar]
  | cons c ds ih =>
      intro es h
      have hds : sep ∉ ds := fun hm => h (List.mem_cons_of_mem c hm)
      have hc : ¬ (c = sep) := fun hc => h (hc ▸ List.mem_cons_self c ds)
      have hrec := ih es hds
      simp only [List.cons_append, splitOnChar, if_neg hc, List.append_eq]
      rw [hrec]

/-- The display form splits back into exactly the minutes digits and the
    seconds digits. -/
theorem splitOnChar_format_time (s : Nat) :
    splitOnChar ':' (format_time s) =
      [natToChars (s / 60), natToChars (s % 60)] := by
  have h1 : ':' ∉ natToChars (s / 60) :=
    no_colon_of_all_digits _ (natToChars_all_digits _)
  have h2 : ':' ∉ natToChars (s % 60) :=
    no_colon_of_all_digits _ (natToChars_all_digits _)
  unfold format_time
  rw [splitOnChar_append_sep ':' _ _ h1, splitOnChar_no_sep ':' _ h2]

/-- Round trip of the time codec. -/
theorem time_to_seconds_format_time (s : Nat) :
    time_to_seconds (format_time s) = some ((s : Int)) := by
  simp only [time_to_seconds, splitOnChar_format_time s,
    pyInt_natToChars (s / 60), pyInt_natToChars (s % 60), Option.some.injEq]
  omega

/-! ## Pipeline data model (src/main.py: jobs, trimVideo, main,
    process_video_in_background, create_clips, get_clips_status) -/

/-- One candidate returned by the segmentation collaborator: the JSON object
    with keys title, start_time and end_time. -/
structure Topic where
  title : List Char
  start_time : List Char
  end_time : List Char
deriving DecidableEq

/-- The JSON structure returned by transcriptHighlights: an object whose
    topics key holds the candidate list. -/
structure Topics where
  topics : List Topic
deriving DecidableEq

/-- One produced clip: the dict with keys title and url appended to
    created_clips in trimVideo. -/
structure ClipRef where
  title : List Char
  url : List Char
deriving DecidableEq

/-- Outcome of the external trim and publish collaborators for one segment,
    as observed by the inner try block of trimVideo:
    trimFail: the ffmpeg call raises and produces no local artifact;
    publishFail: the trim succeeds but the Firebase upload (or make_public)
    raises, so the local clip file is never removed;
    ok: trim and upload both succeed, yielding the public url, and the local
    file is removed. -/
inductive SegOutcome where
  | trimFail
  | publishFail
  | ok (url : List Char)
deriving DecidableEq

/-- Oracle describing the behaviour of every external collaborator during one
    job: yt-dlp (downloadVideo), ffmpeg audio extraction (getAudio), Whisper
    (generateTranscripts, none meaning failure, otherwise the full transcript
    text), GPT segmentation (transcriptHighlights, none meaning failure or a
    falsy response object), and the per-segment trim plus publish outcome,
    indexed by segment position and the start and end seconds passed to
    ffmpeg. -/
structure Env where
  download_ok : Bool
  audio_ok : Bool
  transcribe : Option (List Char)
  segmentation : Option Topics
  seg : Nat → Int → Int → SegOutcome

/-- The trim and publish outcome of one topic, none when one of the two
    int() conversions at the top of the loop body raises (that exception is
    caught only by the outer handler of trimVideo). -/
def segOutcomeAt (env : Env) (i : Nat) (t : Topic) : Option SegOutcome :=
  match time_to_seconds t.start_time, time_to_seconds t.end_time with
  | some a, some b => some (env.seg i a b)
  | _, _ => none

/-- The for loop of trimVideo over segments.topics, starting at index i.
    Returns none when an exception escapes to the outer handler (a malformed
    time string), otherwise the collected clips together with the number of
    local clip files left behind by failed uploads. -/
def trimVideoLoop (env : Env) : Nat → List Topic → Option (List ClipRef × Nat)
  | _, [] => some ([], 0)
  | i, t :: ts =>
      match segOutcomeAt env i t with
      | none => none
      | some SegOutcome.trimFail => trimVideoLoop env (i + 1) ts
      | some SegOutcome.publishFail =>
          (trimVideoLoop env (i + 1) ts).map (fun r => (r.1, r.2 + 1))
      | some (SegOutcome.ok url) =>
          (trimVideoLoop env (i + 1) ts).map
            (fun r => ({ title := t.title, url := url } :: r.1, r.2))

/-- src/main.py trimVideo: runs the loop, then os.rmdir on the chapters
    directory; rmdir raises when leftover clip files remain (uploads that
    failed), and that exception is caught by the outer handler, which returns
    None.  A None result discards every clip already produced and uploaded. -/
def trimVideo (env : Env) (segments : Topics) : Option (List ClipRef) :=
  match trimVideoLoop env 0 segments.topics with
  | none => none
  | some (clips, leftover) => if leftover = 0 then some clips else none

/-- src/main.py clean_title computation inside trimVideo: every character
    other than an alphanumeric, a space or an underscore becomes an
    underscore, then spaces become underscores.  (Python isalnum is Unicode
    aware; Char.isAlphanum covers the ASCII titles considered here.) -/
def clean_title (cs : List Char) : List Char :=
  (cs.map (fun c => if c.isAlphanum || c = ' ' || c = '_' then c else '_')).map
    (fun c => if c = ' ' then '_' else c)

/-- src/main.py main: the five stages in sequence; every stage returning a
    falsy value (None, an empty transcript string, an empty clip list) makes
    main return None. -/
def main (env : Env) : Option (List ClipRef) :=
  if env.download_ok = false then none
  else if env.audio_ok = false then none
  else
    match env.transcribe with
    | none => none
    | some transcript_content =>
        if transcript_content = [] then none
        else
          match env.segmentation with
          | none => none
          | some segment_data =>
              match trimVideo env segment_data with
              | none => none
              | some clips => if clips = [] then none else some clips

/-- One job record in the jobs dict: the status string, the creation
    timestamp (datetime.now().isoformat(), abstracted to a number), the clips
    list and the optional error string. -/
structure JobRecord where
  status : String
  created_at : Nat
  clips : List ClipRef
  error : Option String
deriving DecidableEq

/-- The jobs dict restricted to one job identifier: none when the identifier
    is absent. -/
abbrev JobStore := Option JobRecord

/-- One atomic mutation of the jobs dict performed by the background thread.
    Under the CPython interpreter each single dict item assignment in
    process_video_in_background is atomic, so the thread's effect on the
    store is exactly a sequence of these operations. -/
inductive JobOp where
  | insert (t : Nat)
  | setStatus (s : String)
  | setClips (cs : List ClipRef)
  | setError (e : String)
deriving DecidableEq

/-- Effect of one mutation on the store. -/
def applyOp (s : JobStore) : JobOp → JobStore
  | JobOp.insert t =>
      some { status := "processing", created_at := t, clips := [], error := none }
  | JobOp.setStatus st => s.map (fun j => { j with status := st })
  | JobOp.setClips cs => s.map (fun j => { j with clips := cs })
  | JobOp.setError e => s.map (fun j => { j with error := some e })

/-- Folding a sequence of mutations over the store. -/
def applyOps (s : JobStore) (ops : List JobOp) : JobStore := ops.foldl applyOp s

/-- The sequence of store mutations performed by
    process_video_in_background: first the initial record insertion, then —
    depending on the truthiness of the main result — either the completed
    status followed by the clips, or the failed status followed by the error
    string.  (The except branch performs the same two mutations with str(e)
    as the message; since every stage catches its own exceptions and main
    returns None instead of raising, only the fixed message arises here.) -/
def runnerOps (env : Env) (t : Nat) : List JobOp :=
  JobOp.insert t ::
    (match main env with
     | some clips => [JobOp.setStatus "completed", JobOp.setClips clips]
     | none => [JobOp.setStatus "failed", JobOp.setError "Failed to generate video"])

/-- The store as a concurrent reader observes it after the background thread
    has executed its first k mutations: the store starts empty because
    create_clips performs no insertion itself. -/
def storeAfter (env : Env) (t k : Nat) : JobStore :=
  applyOps none ((runnerOps env t).take k)

/-- src/main.py process_video_in_background: the store once the background
    thread has run to completion. -/
def process_video_in_background (env : Env) (t : Nat) : JobStore :=
  applyOps none (runnerOps env t)

/-- Character-list prefix test (Python str.startswith on one candidate). -/
def listStartsWith : List Char → List Char → Bool
  | [], _ => true
  | _ :: _, [] => false
  | p :: ps, c :: cs => p == c && listStartsWith ps cs

/-- The URL validation of create_clips: startswith on the two accepted
    prefixes. -/
def validYoutubeUrl (url : List Char) : Bool :=
  listStartsWith (("https://www.youtube.com/").data) url ||
    listStartsWith (("https://youtu.be/").data) url

/-- src/main.py create_clips: validates the URL, generates a job identifier
    and starts the background thread; it performs no store mutation itself,
    so at the moment the 202 response is returned the store is unchanged.
    Result: the store as left by the handler, and whether the submission was
    accepted. -/
def create_clips (s : JobStore) (url : List Char) : JobStore × Bool :=
  (s, validYoutubeUrl url)

/-- One value of the JSON response of get_clips_status. -/
inductive JVal where
  | jbool (b : Bool)
  | jstr (s : String)
  | jnat (n : Nat)
  | jclips (cs : List ClipRef)
deriving DecidableEq

/-- src/main.py get_clips_status: 404 (modelled none) when the identifier is
    absent from jobs, otherwise the JSON object with the success flag, the
    status, the creation timestamp and the clips list.  (The echoed job_id
    string is not modelled; no other key is produced — in particular no
    error key.) -/
def get_clips_status (s : JobStore) : Option (List (String × JVal)) :=
  match s with
  | none => none
  | some j =>
      some [("success", JVal.jbool true),
            ("status", JVal.jstr j.status),
            ("created_at", JVal.jnat j.created_at),
            ("clips", JVal.jclips j.clips)]

/-- A store state is consistent for a reader when a terminal status comes
    with its payload: completed implies a non-empty clips list, failed
    implies a populated error field. -/
def consistentStore (s : JobStore) : Prop :=
  match s with
  | none => True
  | some j =>
      (j.status = "completed" → j.clips ≠ []) ∧
      (j.status = "failed" → j.error ≠ none)

/-- The record invariant claimed by the specification: clips non-empty
    exactly when completed, error set exactly when failed. -/
def recordInvariant (j : JobRecord) : Prop :=
  (j.clips ≠ [] ↔ j.status = "completed") ∧
  (j.error ≠ none ↔ j.status = "failed")

/-- The record invariant lifted to a possibly-absent record. -/
def invariantStore (s : JobStore) : Prop :=
  match s with
  | none => True
  | some j => recordInvariant j

/-- Per-index success predicate for a topic list: every topic parses and no
    upload fails (so no local artifact is left behind). -/
def goodSegs (env : Env) : Nat → List Topic → Bool
  | _, [] => true
  | i, t :: ts =>
      (match segOutcomeAt env i t with
       | some SegOutcome.publishFail => false
       | some _ => true
       | none => false) && goodSegs env (i + 1) ts

/-- The clips produced by the segments whose trim and publish both succeed,
    in order. -/
def okClips (env : Env) : Nat → List Topic → List ClipRef
  | _, [] => []
  | i, t :: ts =>
      match segOutcomeAt env i t with
      | some (SegOutcome.ok url) =>
          { title := t.title, url := url } :: okClips env (i + 1) ts
      | _ => okClips env (i + 1) ts

/-! ### Lemmas about the pipeline -/

/-- main never reports success with an empty clip list: the final truthiness
    test turns an empty list into None. -/
theorem main_some_ne_nil (env : Env) (cs : List ClipRef)
    (h : main env = some cs) : cs ≠ [] := by
  unfold main at h
  split at h
  · exact absurd h (by simp)
  · split at h
    · exact absurd h (by simp)
    · split at h
      · exact absurd h (by simp)
      · rename_i content heq
        split at h
        · exact absurd h (by simp)
        · split at h
          · exact absurd h (by simp)
          · split at h
            · exact absurd h (by simp)
            · rename_i clips heq2
              split at h
              · exact absurd h (by simp)
              · rename_i hne
                cases h
                exact hne

/-- Final store when main succeeds. -/
theorem pvib_completed (env : Env) (t : Nat) (cs : List ClipRef)
    (h : main env = some cs) :
    process_video_in_background env t =
      some { status := "completed", created_at := t, clips := cs, error := none } := by
  simp [process_video_in_background, runnerOps, h, applyOps, applyOp]

/-- Final store when main fails. -/
theorem pvib_failed (env : Env) (t : Nat) (h : main env = none) :
    process_video_in_background env t =
      some { status := "failed", created_at := t, clips := [],
             error := some "Failed to generate video" } := by
  simp [process_video_in_background, runnerOps, h, applyOps, applyOp]

/-- The background thread performs exactly three store mutations. -/
theorem runnerOps_length (env : Env) (t : Nat) :
    (runnerOps env t).length = 3 := by
  unfold runnerOps
  split <;> rfl

/-- Once the background thread has executed all its mutations, the observed
    store is the final one. -/
theorem storeAfter_ge_three (env : Env) (t k : Nat) (h : 3 ≤ k) :
    storeAfter env t k = process_video_in_background env t := by
  unfold storeAfter process_video_in_background
  rw [List.take_of_length_le (by rw [runnerOps_length]; omega)]

/-- Mutations never remove the record once it is present. -/
theorem applyOps_ne_none (ops : List JobOp) :
    ∀ s : JobStore, s ≠ none → applyOps s ops ≠ none := by
  induction ops with
  | nil => intro s h; exact h
  | cons op ops ih =>
      intro s h
      have hstep : applyOp s op ≠ none := by
        cases op with
        | insert t => simp [applyOp]
        | setStatus st =>
            cases s with
            | none => exact absurd rfl h
            | some j => simp [applyOp]
        | setClips cs =>
            cases s with
            | none => exact absurd rfl h
            | some j => simp [applyOp]
        | setError e =>
            cases s with
            | none => exact absurd rfl h
            | some j => simp [applyOp]
      exact ih (applyOp s op) hstep

/-- Under goodSegs the loop collects exactly the successful clips and leaves
    no local artifact behind. -/
theorem trimVideoLoop_good (env : Env) :
    ∀ ts : List Topic, ∀ i : Nat, goodSegs env i ts = true →
      trimVideoLoop env i ts = some (okClips env i ts, 0) := by
  intro ts
  induction ts with
  | nil => intro i _; rfl
  | cons t ts ih =>
      intro i h
      simp only [goodSegs, Bool.and_eq_true] at h
      obtain ⟨h1, h2⟩ := h
      have hrec := ih (i + 1) h2
      cases hout : segOutcomeAt env i t with
      | none => rw [hout] at h1; exact absurd h1 (by simp)
      | some o =>
          cases o with
          | trimFail =>
              simp only [trimVideoLoop, okClips, hout, hrec]
          | publishFail => rw [hout] at h1; exact absurd h1 (by simp)
          | ok url =>
              simp only [trimVideoLoop, okClips, hout, hrec]
              rfl

/-- Under goodSegs trimVideo succeeds with exactly the successful clips. -/
theorem trimVideo_good (env : Env) (segments : Topics)
    (h : goodSegs env 0 segments.topics = true) :
    trimVideo env segments = some (okClips env 0 segments.topics) := by
  simp [trimVideo, trimVideoLoop_good env segments.topics 0 h]

/-- The response of get_clips_status never carries an error key. -/
theorem error_key_not_in_response (j : JobRecord) (v : JVal) :
    ("error", v) ∉ [("success", JVal.jbool true), ("status", JVal.jstr j.status),
      ("created_at", JVal.jnat j.created_at), ("clips", JVal.jclips j.clips)] := by
  intro hv
  simp only [List.mem_cons, List.not_mem_nil, or_false] at hv
  rcases hv with h | h | h | h
  · exact absurd (show ("error" : String) = "success" from congrArg Prod.fst h)
      (by decide)
  · exact absurd (show ("error" : String) = "status" from congrArg Prod.fst h)
      (by decide)
  · exact absurd (show ("error" : String) = "created_at" from congrArg Prod.fst h)
      (by decide)
  · exact absurd (show ("error" : String) = "clips" from congrArg Prod.fst h)
      (by decide)

/-! ### Concrete collaborator behaviours used as test inputs -/

/-- A public URL produced by the publish collaborator. -/
def urlA : List Char := ("https://storage.example/clip1.mp4").data

/-- A second public URL. -/
def urlB : List Char := ("https://storage.example/clip2.mp4").data

/-- A well-formed candidate segment. -/
def topicA : Topic :=
  { title := ("Intro").data, start_time := ("0:10").data,
    end_time := ("0:20").data }

/-- A second well-formed candidate segment. -/
def topicB : Topic :=
  { title := ("Middle").data, start_time := ("0:30").data,
    end_time := ("0:40").data }

/-- A third well-formed candidate segment. -/
def topicC : Topic :=
  { title := ("Finale").data, start_time := ("0:50").data,
    end_time := ("1:05").data }

/-- A candidate whose start lies at or after its end (20s to 10s). -/
def topicReversed : Topic :=
  { title := ("Backwards").data, start_time := ("0:20").data,
    end_time := ("0:10").data }

/-- All stages succeed and the single segment is trimmed and published. -/
def envOneClip : Env :=
  { download_ok := true, audio_ok := true,
    transcribe := some (("words").data),
    segmentation := some { topics := [topicA] },
    seg := fun _ _ _ => SegOutcome.ok urlA }

/-- All stages succeed but the segmentation collaborator returns zero
    candidates. -/
def envNoTopics : Env :=
  { download_ok := true, audio_ok := true,
    transcribe := some (("transcript text").data),
    segmentation := some { topics := [] },
    seg := fun _ _ _ => SegOutcome.trimFail }

/-- The fetch collaborator fails. -/
def envDownFail : Env :=
  { download_ok := false, audio_ok := true,
    transcribe := some (("words").data),
    segmentation := some { topics := [topicA] },
    seg := fun _ _ _ => SegOutcome.ok urlA }

/-- Three segments: the first is trimmed and published, the upload of the
    other two fails, leaving their clip files on disk. -/
def envPublishFail : Env :=
  { download_ok := true, audio_ok := true,
    transcribe := some (("words").data),
    segmentation := some { topics := [topicA, topicB, topicC] },
    seg := fun i _ _ => if i = 0 then SegOutcome.ok urlA else SegOutcome.publishFail }

/-- Three segments: the first is trimmed and published, the ffmpeg trim of
    the other two fails without leaving a file. -/
def envPartialOk : Env :=
  { download_ok := true, audio_ok := true,
    transcribe := some (("words").data),
    segmentation := some { topics := [topicA, topicB, topicC] },
    seg := fun i _ _ => if i = 0 then SegOutcome.ok urlA else SegOutcome.trimFail }

/-- All stages succeed and every trim and publish succeeds, on the reversed
    segment. -/
def envAlwaysOk : Env :=
  { download_ok := true, audio_ok := true,
    transcribe := some (("words").data),
    segmentation := some { topics := [topicReversed] },
    seg := fun _ _ _ => SegOutcome.ok urlB }

-- Concrete behaviour of the pipeline on the environments above.
example : main envOneClip = some [{ title := ("Intro").data, url := urlA }] := rfl
example : main envNoTopics = none := rfl
example : main envPublishFail = none := rfl
example : main envPartialOk = some [{ title := ("Intro").data, url := urlA }] := rfl

/-! ## Claims -/

/-- C1 (counterexample): a job whose segmentation collaborator returns zero
    candidates ends failed with the fixed diagnostic and an empty clip list,
    not completed: main treats the empty clip list as falsy. -/
theorem C1_counterexample :
    process_video_in_background envNoTopics 0 =
      some { status := "failed", created_at := 0, clips := [],
             error := some "Failed to generate video" } ∧
    ¬ ((process_video_in_background envNoTopics 0).map JobRecord.status =
        some "completed") :=
  ⟨rfl, by decide⟩

/-- C1 (amended): whenever the earlier stages succeed and trimVideo returns
    an empty clip list — in particular when the segmentation collaborator
    returns zero candidates — the job ends with status failed, the error
    string set and an empty clips list, because main converts the empty list
    to None. -/
theorem C1_zero_candidates_fails (env : Env) (t : Nat) (segs : Topics)
    (h1 : env.download_ok = true) (h2 : env.audio_ok = true)
    (h3 : ∃ c, env.transcribe = some c ∧ c ≠ [])
    (h4 : env.segmentation = some segs)
    (h5 : trimVideo env segs = some []) :
    process_video_in_background env t =
      some { status := "failed", created_at := t, clips := [],
             error := some "Failed to generate video" } := by
  obtain ⟨c, hc, hcne⟩ := h3
  have hm : main env = none := by
    simp [main, h1, h2, hc, hcne, h4, h5]
  exact pvib_failed env t hm

/-- C1 (witness): the amended statement at the zero-candidate environment. -/
theorem C1_witness :
    process_video_in_background envNoTopics 0 =
      some { status := "failed", created_at := 0, clips := [],
             error := some "Failed to generate video" } :=
  C1_zero_candidates_fails envNoTopics 0 { topics := [] } rfl rfl
    ⟨("transcript text").data, rfl, by decide⟩ rfl rfl

/-- C2 (counterexample): after the background thread has executed its first
    two mutations (the insert and the status assignment) a concurrent reader
    observes status completed with a still-empty clips list: the terminal
    status and its payload are two separate dict assignments, not one atomic
    update. -/
theorem C2_counterexample :
    storeAfter envOneClip 0 2 =
      some { status := "completed", created_at := 0, clips := [], error := none } ∧
    ¬ consistentStore (storeAfter envOneClip 0 2) := by
  refine ⟨rfl, fun h => ?_⟩
  exact (h.1 rfl) rfl

/-- C2 (amended): the terminal status and its payload are written by two
    separate store mutations, so a reader between them can observe a
    terminal status with an empty payload; once the background thread has
    finished, every observation is consistent: completed comes with a
    non-empty clips list and failed with a populated error field. -/
theorem C2_final_store_consistent (env : Env) (t : Nat) :
    consistentStore (process_video_in_background env t) := by
  cases hm : main env with
  | some cs =>
      rw [pvib_completed env t cs hm]
      exact ⟨fun _ => main_some_ne_nil env cs hm,
             fun h => absurd (show ("completed" : String) = "failed" from h)
               (by decide)⟩
  | none =>
      rw [pvib_failed env t hm]
      exact ⟨fun h => absurd (show ("failed" : String) = "completed" from h)
               (by decide),
             fun _ => Option.some_ne_none _⟩

/-- C3 (counterexample): time_to_seconds on a string with two separators does
    not fail: it returns the integer value of the first part. -/
theorem C3_counterexample :
    time_to_seconds (("1:2:3").data) = some 1 ∧
    time_to_seconds (("1:2:3").data) ≠ none :=
  ⟨rfl, by decide⟩

/-- C3 (amended): on an input with more than one separator, time_to_seconds
    does not signal a malformed time: the length test fails and the function
    falls to the bare-seconds branch, returning int() of the first part
    (failing only if that part is non-numeric). -/
theorem C3_multi_separator_first_part (cs : List Char)
    (h : 3 ≤ (splitOnChar ':' cs).length) :
    time_to_seconds cs = pyInt ((splitOnChar ':' cs).headD []) := by
  rcases hsp : splitOnChar ':' cs with _ | ⟨a, _ | ⟨b, _ | ⟨c, rest⟩⟩⟩
  · rw [hsp] at h; exact absurd h (by simp)
  · rw [hsp] at h; exact absurd h (by simp)
  · rw [hsp] at h; exact absurd h (by simp)
  · unfold time_to_seconds
    rw [hsp]

/-- C3 (witness): the amended statement at the input of the claim. -/
theorem C3_witness :
    time_to_seconds (("1:2:3").data) =
      pyInt ((splitOnChar ':' (("1:2:3").data)).headD []) :=
  C3_multi_separator_first_part (("1:2:3").data) (by decide)

/-- C4 (confirmed): the codec round trip — parsing the display form of any
    non-negative integer number of seconds yields that number back; the
    missing zero padding is harmless because int() accepts one-digit
    second parts. -/
theorem C4_roundtrip (s : Nat) :
    time_to_seconds (format_time s) = some ((s : Int)) := by
  simp only [time_to_seconds, splitOnChar_format_time s,
    pyInt_natToChars (s / 60), pyInt_natToChars (s % 60), Option.some.injEq]
  omega

/-- C5 (counterexample): a valid submission is accepted while leaving the
    job store untouched — the insert happens in the background thread — so a
    status query that runs before the thread's first mutation is told the job
    is unknown (404). -/
theorem C5_counterexample :
    (create_clips none (("https://youtu.be/dQw4w9WgXcQ").data)).2 = true ∧
    (create_clips none (("https://youtu.be/dQw4w9WgXcQ").data)).1 = none ∧
    get_clips_status (storeAfter envOneClip 0 0) = none :=
  ⟨rfl, rfl, rfl⟩

/-- C5 (amended): the job record is inserted by the background thread as its
    first mutation, not by the submission handler; only from that first
    mutation onwards does every status query find the job. -/
theorem C5_known_after_first_step (env : Env) (t k : Nat) (hk : 1 ≤ k) :
    get_clips_status (storeAfter env t k) ≠ none := by
  obtain ⟨m, rfl⟩ : ∃ m, k = m + 1 := ⟨k - 1, by omega⟩
  have hs : storeAfter env t (m + 1) ≠ none := by
    unfold storeAfter runnerOps
    rw [List.take_succ_cons]
    show applyOps none (JobOp.insert t :: _) ≠ none
    unfold applyOps
    rw [List.foldl_cons]
    exact applyOps_ne_none _ _ (by simp [applyOp])
  cases hs2 : storeAfter env t (m + 1) with
  | none => exact absurd hs2 hs
  | some j => simp [get_clips_status]

/-- C5 (witness): right after the background thread's first mutation the job
    is visible. -/
theorem C5_witness : get_clips_status (storeAfter envOneClip 0 1) ≠ none :=
  C5_known_after_first_step envOneClip 0 1 (by decide)

/-- C6 (counterexample): a failed job stores the diagnostic in its record,
    but the status query response contains only the success flag, the
    status, the timestamp and the clips list — no error key at all. -/
theorem C6_counterexample :
    process_video_in_background envDownFail 0 =
      some { status := "failed", created_at := 0, clips := [],
             error := some "Failed to generate video" } ∧
    get_clips_status (process_video_in_background envDownFail 0) =
      some [("success", JVal.jbool true), ("status", JVal.jstr "failed"),
            ("created_at", JVal.jnat 0), ("clips", JVal.jclips [])] ∧
    (((get_clips_status (process_video_in_background envDownFail 0)).getD []).all
      (fun kv => kv.1 != "error")) = true :=
  ⟨rfl, rfl, rfl⟩

/-- C6 (amended): for every finished job the status query returns the status,
    the creation timestamp and the clips list; for failed jobs the record
    carries the diagnostic string but the response never contains an error
    key, so the diagnostic is not returned. -/
theorem C6_response_omits_error (env : Env) (t : Nat) :
    ∃ j resp, process_video_in_background env t = some j ∧
      get_clips_status (some j) = some resp ∧
      ("status", JVal.jstr j.status) ∈ resp ∧
      ("clips", JVal.jclips j.clips) ∈ resp ∧
      (j.status = "failed" → j.error = some "Failed to generate video") ∧
      ∀ v : JVal, ("error", v) ∉ resp := by
  cases hm : main env with
  | some cs =>
      refine ⟨_, _, pvib_completed env t cs hm, rfl, by simp, by simp, ?_, ?_⟩
      · intro h
        exact absurd (show ("completed" : String) = "failed" from h) (by decide)
      · intro v
        exact error_key_not_in_response _ v
  | none =>
      refine ⟨_, _, pvib_failed env t hm, rfl, by simp, by simp, fun _ => rfl, ?_⟩
      intro v
      exact error_key_not_in_response _ v

/-- C7 (counterexample): three segments, the first trimmed and published and
    the other two failing at the upload stage: their clip files stay on
    disk, the final os.rmdir of the chapters directory raises, trimVideo
    returns None discarding the successful clip, and the job ends failed
    with zero clips instead of completed with one clip. -/
theorem C7_counterexample :
    process_video_in_background envPublishFail 0 =
      some { status := "failed", created_at := 0, clips := [],
             error := some "Failed to generate video" } ∧
    ¬ ((process_video_in_background envPublishFail 0).map JobRecord.status =
        some "completed") :=
  ⟨rfl, by decide⟩

/-- C7 (amended): per-segment failure tolerance holds for trim-stage
    failures only: when every segment parses, no upload fails, and at least
    one segment succeeds, the job ends completed with exactly the clips of
    the successful segments; an upload failure instead leaves a local
    artifact whose presence makes the final directory removal raise,
    failing the whole job. -/
theorem C7_trim_failures_tolerated (env : Env) (t : Nat) (segs : Topics)
    (h1 : env.download_ok = true) (h2 : env.audio_ok = true)
    (h3 : ∃ c, env.transcribe = some c ∧ c ≠ [])
    (h4 : env.segmentation = some segs)
    (h5 : goodSegs env 0 segs.topics = true)
    (h6 : okClips env 0 segs.topics ≠ []) :
    process_video_in_background env t =
      some { status := "completed", created_at := t,
             clips := okClips env 0 segs.topics, error := none } := by
  obtain ⟨c, hc, hcne⟩ := h3
  have hm : main env = some (okClips env 0 segs.topics) := by
    simp [main, h1, h2, hc, hcne, h4, trimVideo_good env segs h5, h6]
  exact pvib_completed env t _ hm

/-- C7 (witness): two of three segments fail at the trim stage; the job
    completes with exactly the one successful clip. -/
theorem C7_witness :
    process_video_in_background envPartialOk 0 =
      some { status := "completed", created_at := 0,
             clips := okClips envPartialOk 0
               (Topics.mk [topicA, topicB, topicC]).topics,
             error := none } :=
  C7_trim_failures_tolerated envPartialOk 0 { topics := [topicA, topicB, topicC] }
    rfl rfl ⟨("words").data, rfl, by decide⟩ rfl (by decide) (by decide)

/-- C8 (counterexample): a candidate whose start (20s) is at or after its
    end (10s) is not discarded: with the trim and publish collaborators
    succeeding it produces a clip. -/
theorem C8_counterexample :
    time_to_seconds topicReversed.start_time = some 20 ∧
    time_to_seconds topicReversed.end_time = some 10 ∧
    trimVideo envAlwaysOk { topics := [topicReversed] } =
      some [{ title := ("Backwards").data, url := urlB }] :=
  ⟨rfl, rfl, rfl⟩

/-- C8 (amended): trimVideo performs no ordering validation on the parsed
    boundary times: a candidate with start at or after end is passed to the
    trim collaborator unconditionally and yields a clip whenever trim and
    publish succeed. -/
theorem C8_no_order_validation (env : Env) (t0 : Topic) (a b : Int)
    (url : List Char)
    (hs : time_to_seconds t0.start_time = some a)
    (he : time_to_seconds t0.end_time = some b)
    (_hle : b ≤ a)
    (hseg : ∀ i x y, env.seg i x y = SegOutcome.ok url) :
    trimVideo env { topics := [t0] } =
      some [{ title := t0.title, url := url }] := by
  simp [trimVideo, trimVideoLoop, segOutcomeAt, hs, he, hseg]

/-- C8 (witness): the amended statement at the reversed segment. -/
theorem C8_witness :
    trimVideo envAlwaysOk { topics := [topicReversed] } =
      some [{ title := topicReversed.title, url := urlB }] :=
  C8_no_order_validation envAlwaysOk topicReversed 20 10 urlB rfl rfl
    (by decide) (fun _ _ _ => rfl)

/-- C9 (counterexample): between the failed-status assignment and the error
    assignment the record violates the claimed invariant: status is failed
    while error is still unset. -/
theorem C9_counterexample :
    storeAfter envDownFail 0 2 =
      some { status := "failed", created_at := 0, clips := [], error := none } ∧
    ¬ invariantStore (storeAfter envDownFail 0 2) := by
  refine ⟨rfl, fun h => ?_⟩
  exact (h.2.mpr rfl) rfl

/-- C9 (amended): the invariant — clips non-empty exactly when completed,
    error set exactly when failed — holds at creation and after the
    background thread finishes, but not at the single point between the
    terminal status mutation and the payload mutation (the third of the
    thread's three mutations). -/
theorem C9_invariant_outside_update (env : Env) (t k : Nat) (hk : k ≠ 2) :
    invariantStore (storeAfter env t k) := by
  rcases Nat.lt_or_ge k 3 with h3 | h3
  · interval_cases k
    · show invariantStore (applyOps none ((runnerOps env t).take 0))
      exact trivial
    · have h1 : storeAfter env t 1 =
          some { status := "processing", created_at := t, clips := [],
                 error := none } := by
        unfold storeAfter runnerOps
        rfl
      rw [h1]
      exact ⟨⟨fun h => absurd rfl h,
              fun h => absurd (show ("processing" : String) = "completed" from h)
                (by decide)⟩,
             ⟨fun h => absurd rfl h,
              fun h => absurd (show ("processing" : String) = "failed" from h)
                (by decide)⟩⟩
    · exact absurd rfl hk
  · rw [storeAfter_ge_three env t k h3]
    cases hm : main env with
    | some cs =>
        rw [pvib_completed env t cs hm]
        exact ⟨⟨fun _ => rfl, fun _ => main_some_ne_nil env cs hm⟩,
               ⟨fun h => absurd rfl h,
                fun h => absurd (show ("completed" : String) = "failed" from h)
                  (by decide)⟩⟩
    | none =>
        rw [pvib_failed env t hm]
        exact ⟨⟨fun h => absurd rfl h,
                fun h => absurd (show ("failed" : String) = "completed" from h)
                  (by decide)⟩,
               ⟨fun _ => rfl, fun _ => Option.some_ne_none _⟩⟩

/-- C9 (witness): the invariant after the background thread has finished. -/
theorem C9_witness : invariantStore (storeAfter envDownFail 0 3) :=
  C9_invariant_outside_update envDownFail 0 3 (by decide)

/-- C10 (counterexample): the display form of 61 seconds is "1:1", not the
    zero-padded "1:01": the f-string pads nothing. -/
theorem C10_counterexample :
    format_time 61 = ('1' :: ':' :: '1' :: []) ∧
    format_time 61 ≠ ('1' :: ':' :: '0' :: '1' :: []) :=
  ⟨rfl, by decide⟩

/-- C10 (amended): the display form is the decimal minutes, a colon, and the
    decimal remaining seconds with no zero padding: when the seconds part is
    below ten it is a single digit character. -/
theorem C10_display_not_padded (s : Nat) :
    splitOnChar ':' (format_time s) =
      [natToChars (s / 60), natToChars (s % 60)] ∧
    parseNat (natToChars (s / 60)) = some (s / 60) ∧
    parseNat (natToChars (s % 60)) = some (s % 60) ∧
    (s % 60 < 10 → natToChars (s % 60) = [digitChar (s % 60)]) :=
  ⟨splitOnChar_format_time s, parseNat_natToChars _, parseNat_natToChars _,
   fun h => by simp [natToChars, natToCharsCore, h]⟩

/-- C10 (witness): at 61 seconds the seconds field is the single digit 1. -/
theorem C10_witness : natToChars (61 % 60) = [digitChar (61 % 60)] :=
  (C10_display_not_padded 61).2.2.2 (by decide)

end Clippa
